import Mathlib

/-!
Verification of the document_intake routing-and-caching orchestration layer.

The router, prompt generator, extraction stages and batch coordinator are
embedded from the repository's workflow/router architecture documentation
(the `route_document` / `classify_document_type` decision flow, the prompt
cache keyed by `sha256(document_type : sha256(json.dumps(schema,
sort_keys=True)))`, the two extraction variants with their cache
discipline), and the Dashboard page-limit handler from the frontend
TypeScript.  LLM calls are modelled as injected oracle functions; caches and
the schema type registry as association lists threaded explicitly; hashing
as the identity on the hashed canonical text (collision-free hash model).
Effect counters record how many LLM calls, cache reads and cache writes a
call performs.
-/

namespace DocumentIntake

/-! ## String primitives (kernel-evaluable replacements for String library functions) -/

/-- Character-list based suffix test (models Python `str.endswith` / TS `endsWith`). -/
def strEndsWith (s suffix : String) : Bool :=
  suffix.data.isSuffixOf s.data

/-- Character-wise lower-casing (models TS `toLowerCase` on ASCII filenames). -/
def strToLower (s : String) : String :=
  ⟨s.data.map Char.toLower⟩

/-- Prefix of at most `n` characters (models Python slicing `text[:n]`). -/
def strTake (s : String) (n : Nat) : String :=
  ⟨s.data.take n⟩

/-- Number of non-whitespace characters of a string. -/
def countNonWhitespace (s : String) : Nat :=
  s.data.countP (fun c => !c.isWhitespace)

/-! ## ContentNormalizer -/

/-- The Unicode replacement character collapsed by the normalizer. -/
def replacementChar : Char := '�'

/-- Collapse consecutive repeats of the replacement character to one occurrence,
leaving every other character untouched. -/
def collapseGarbageChars : List Char → List Char
  | [] => []
  | [c] => [c]
  | c1 :: c2 :: rest =>
    if c1 = replacementChar ∧ c2 = replacementChar then collapseGarbageChars (c2 :: rest)
    else c1 :: collapseGarbageChars (c2 :: rest)

/-- The `_normalize_garbage_characters` helper of `core_pipeline.py`: collapses
runs of the replacement character while preserving all other content. -/
def normalizeGarbageCharacters (text : String) : String :=
  ⟨collapseGarbageChars text.data⟩

/-! ## Association-list store (cache directories, Supabase tables) -/

/-- Lookup in an association list keyed by strings; the first binding wins,
matching a map store where writes prepend the newest entry. -/
def alookup {α : Type} : List (String × α) → String → Option α
  | [], _ => none
  | (k, v) :: rest, s => if k = s then some v else alookup rest s

/-! ## TypeRegistry and Router (classify) -/

/-- The routing decision returned by the router: an extraction workflow and a
document type. -/
structure RoutingDecision where
  workflow : String
  documentType : String
deriving DecidableEq, Repr

/-- Shared mutable state the router touches: the Supabase `schemas` table's
`document_type` column (`registry`, keyed by schema id) and the on-disk
router cache (`routerCache`, keyed by the content-derived cache key). -/
structure RouterState where
  registry : List (String × String)
  routerCache : List (String × RoutingDecision)
deriving DecidableEq, Repr

/-- Effect counters for one router call. -/
structure RouterEffects where
  llmCalls : Nat
  cacheReads : Nat
  cacheWrites : Nat
  registryWrites : Nat
deriving DecidableEq, Repr

/-- Modelled from the spec: `TypeRegistry.setDocumentTypeIfAbsent(schemaId, type)`
(the backend `update_schema_document_type` store operation is not under `src/`).
Per spec section 4.3 it returns whether the write happened, never overwrites an
existing non-null value and never clears a stored value. -/
def setDocumentTypeIfAbsent (registry : List (String × String)) (sid t : String) :
    List (String × String) × Bool :=
  match alookup registry sid with
  | some _ => (registry, false)
  | none => ((sid, t) :: registry, true)

/-- Layer-1 lookup: the authoritative `document_type` stored on the schema, if a
schema id was supplied and the stored value is non-empty. -/
def getAuthoritativeType (registry : List (String × String)) (schemaId : Option String) :
    Option String :=
  match schemaId with
  | none => none
  | some sid =>
    match alookup registry sid with
    | none => none
    | some t => if t = "" then none else some t

/-- The routing snippet: the first 2000 characters of the normalized content. -/
def snippetOf (content : String) : String :=
  strTake (normalizeGarbageCharacters content) 2000

/-- Router cache key derived from `(snippet, schema_id)` via `generate_cache_key`;
the hash is modelled as the identity on its canonical input. -/
def routerCacheKey (snippet : String) (schemaId : Option String) : String :=
  snippet ++ "|schema_id=" ++ (match schemaId with | none => "None" | some s => s)

/-- The `_determine_workflow(extension, length)` heuristic: `"basic"` for `.txt`
files or very short content (fewer than 50 non-whitespace characters),
`"balanced"` for everything else. -/
def determineWorkflow (filename : String) (nonWsLen : Nat) : String :=
  if strEndsWith filename ".txt" ∨ nonWsLen < 50 then "basic" else "balanced"

/-- The backfill step of the router: when a schema id was supplied and the
final (LLM-inferred) type is not the `"generic"` sentinel, persist it via the
set-if-absent registry write; returns the new registry and whether a write
happened. -/
def classifyBackfill (registry : List (String × String)) (schemaId : Option String)
    (inferred : String) : List (String × String) × Bool :=
  match schemaId with
  | some sid =>
    if inferred ≠ "generic" then setDocumentTypeIfAbsent registry sid inferred
    else (registry, false)
  | none => (registry, false)

/-- The router (`classify_document_type` / `route_document`): layered decision
flow over the type registry (Layer 1), the router cache (Layer 2) and an LLM
classification oracle (Layer 3), with the `.txt` and short-content fast paths
and the backfill/cache writes of the documented flow.  The oracle maps the
snippet to the inferred document type, `none` modelling a failed LLM call
(timeout or malformed response), which falls back to `"generic"`; a failing
classification therefore never raises.  On a Layer-1 hit the stored type is
authoritative and the AI classification is skipped entirely; the per-file
workflow is the `_determine_workflow` heuristic.  On the Layer-1-miss path the
Layer-2 cache lookup precedes the short-content check, as in the documented
step order. -/
def classify (content filename : String) (schemaId : Option String) (st : RouterState)
    (oracle : String → Option String) : RoutingDecision × RouterState × RouterEffects :=
  let authType := getAuthoritativeType st.registry schemaId
  let snippet := snippetOf content
  let nonWsLen := countNonWhitespace snippet
  let wf := determineWorkflow filename nonWsLen
  match authType with
  | some t => (⟨wf, t⟩, st, ⟨0, 0, 0, 0⟩)
  | none =>
    if strEndsWith filename ".txt" then
      (⟨"basic", "generic"⟩, st, ⟨0, 0, 0, 0⟩)
    else
      let key := routerCacheKey snippet schemaId
      match alookup st.routerCache key with
      | some d => (d, st, ⟨0, 1, 0, 0⟩)
      | none =>
        if nonWsLen < 50 then
          (⟨"basic", "generic"⟩, st, ⟨0, 1, 0, 0⟩)
        else
          let inferred := (oracle snippet).getD "generic"
          let backfill := classifyBackfill st.registry schemaId inferred
          let d : RoutingDecision := ⟨wf, inferred⟩
          (d, ⟨backfill.1, (key, d) :: st.routerCache⟩,
            ⟨1, 1, 1, if backfill.2 then 1 else 0⟩)

/-! ## Concrete router inputs used by witnesses and counterexamples -/

/-- A router oracle that always answers `invoice`. -/
def invoiceRouterOracle : String → Option String := fun _ => some "invoice"

/-- A router oracle whose every call fails (timeout / malformed response). -/
def failingRouterOracle : String → Option String := fun _ => none

/-- A long plain content sample with at least 50 non-whitespace characters. -/
def longContent : String := ⟨List.replicate 60 'a'⟩

/-! ## PromptGenerator (`generate_system_prompt`) and its canonical schema JSON -/

mutual

/-- JSON values, as passed to `json.dumps` for the schema canonicalization. -/
inductive Json where
  | null : Json
  | jbool (b : Bool) : Json
  | jnum (n : Int) : Json
  | jstr (s : String) : Json
  | jarr (elems : JsonList) : Json
  | jobj (entries : JsonEntries) : Json

/-- The elements of a JSON array, in order. -/
inductive JsonList where
  | nil : JsonList
  | cons (hd : Json) (tl : JsonList) : JsonList

/-- The key/value entries of a JSON object, in their textual order. -/
inductive JsonEntries where
  | nil : JsonEntries
  | cons (key : String) (val : Json) (tl : JsonEntries) : JsonEntries

end

/-- Build a `JsonList` from a list of values. -/
def jsonListOf : List Json → JsonList
  | [] => .nil
  | x :: xs => .cons x (jsonListOf xs)

/-- Build `JsonEntries` from a list of key/value pairs. -/
def jsonEntriesOf : List (String × Json) → JsonEntries
  | [] => .nil
  | (k, v) :: rest => .cons k v (jsonEntriesOf rest)

/-- JSON array from a list of values. -/
def Json.arrOf (xs : List Json) : Json := .jarr (jsonListOf xs)

/-- JSON object from a list of key/value pairs. -/
def Json.objOf (es : List (String × Json)) : Json := .jobj (jsonEntriesOf es)

/-- Key-wise order on rendered object entries, as used by `sort_keys=True`; keys
are compared lexicographically on their character sequences. -/
def entryKeyLe (a b : String × String) : Prop := a.1.data ≤ b.1.data

instance : DecidableRel entryKeyLe :=
  fun a b => inferInstanceAs (Decidable (a.1.data ≤ b.1.data))

instance : IsTotal (String × String) entryKeyLe := ⟨fun a b => le_total a.1.data b.1.data⟩

instance : IsTrans (String × String) entryKeyLe := ⟨fun _ _ _ h1 h2 => le_trans h1 h2⟩

/-- Strict key-wise order on rendered object entries. -/
def entryKeyLt (a b : String × String) : Prop := a.1.data < b.1.data

instance : IsAntisymm (String × String) entryKeyLt :=
  ⟨fun _ _ h1 h2 => absurd (lt_trans h1 h2) (lt_irrefl _)⟩

/-- Sort the rendered entries of a JSON object by key (`json.dumps(sort_keys=True)`
sorts object keys before serializing; array order is untouched). -/
def sortEntries (l : List (String × String)) : List (String × String) :=
  List.insertionSort entryKeyLe l

/-- Join rendered array elements with commas. -/
def joinComma : List String → String
  | [] => ""
  | [x] => x
  | x :: rest => x ++ "," ++ joinComma rest

/-- Join rendered object entries with commas, quoting keys. -/
def joinEntries : List (String × String) → String
  | [] => ""
  | [(k, v)] => "\"" ++ k ++ "\":" ++ v
  | (k, v) :: rest => "\"" ++ k ++ "\":" ++ v ++ "," ++ joinEntries rest

mutual

/-- Canonical serialization of a JSON value: object keys are sorted
(`sort_keys=True`), array element order is preserved. -/
def serializeJson : Json → String
  | .null => "null"
  | .jbool b => if b then "true" else "false"
  | .jnum n => toString n
  | .jstr s => "\"" ++ s ++ "\""
  | .jarr xs => "[" ++ joinComma (serializeJsonList xs) ++ "]"
  | .jobj es => "\x7b" ++ joinEntries (sortEntries (renderEntries es)) ++ "\x7d"

/-- Serialize each element of a JSON array, in order. -/
def serializeJsonList : JsonList → List String
  | .nil => []
  | .cons x xs => serializeJson x :: serializeJsonList xs

/-- Render each object entry to (key, serialized value), in the original order. -/
def renderEntries : JsonEntries → List (String × String)
  | .nil => []
  | .cons k v rest => (k, serializeJson v) :: renderEntries rest

end

/-- The schema hash `sha256(json.dumps(schema, sort_keys=True))`; the hash is
modelled as the identity on the canonical serialization. -/
def schemaHash (schema : Json) : String := serializeJson schema

/-- The prompt cache key `sha256(f"[documentType]:[schemaHash]")`, with the
hash again modelled as the identity on the hashed text. -/
def promptCacheKey (documentType : String) (schema : Json) : String :=
  documentType ++ ":" ++ schemaHash schema

/-- Effect counters for prompt-generation and extraction calls. -/
structure CallEffects where
  llmCalls : Nat
  cacheReads : Nat
  cacheWrites : Nat
deriving DecidableEq, Repr

/-- The generic fallback system prompt used when the prompt-generation LLM call
fails; it still enforces schema-aligned, non-hallucinating extraction. -/
def genericFallbackPrompt : String :=
  "You are a precise data extraction assistant. Extract only the fields defined in the schema, never invent values, and use null for fields that cannot be found."

/-- The `generate_system_prompt(document_type, schema)` helper: looks the prompt
cache key up in the Supabase `prompt_cache` table; on a hit the cached prompt is
returned with no LLM call; on a miss the meta-prompt oracle is called and a
successful result is persisted under the key, while a failed call falls back to
the generic prompt without caching. -/
def generate_system_prompt (documentType : String) (schema : Json)
    (promptCache : List (String × String)) (oracle : String → Json → Option String) :
    String × List (String × String) × CallEffects :=
  let key := promptCacheKey documentType schema
  match alookup promptCache key with
  | some p => (p, promptCache, ⟨0, 1, 0⟩)
  | none =>
    match oracle documentType schema with
    | some p => (p, (key, p) :: promptCache, ⟨1, 1, 1⟩)
    | none => (genericFallbackPrompt, promptCache, ⟨1, 1, 0⟩)

/-- A prompt oracle that always produces the same system prompt. -/
def constPromptOracle : String → Json → Option String := fun _ _ => some "SYSTEM PROMPT"

/-- Schema with its `fields` array in one order. -/
def schemaFieldsAB : Json :=
  Json.objOf [("fields", Json.arrOf [Json.jstr "total", Json.jstr "notes"])]

/-- The same schema with the `fields` array reversed (same key order within
objects, only the array elements reordered). -/
def schemaFieldsBA : Json :=
  Json.objOf [("fields", Json.arrOf [Json.jstr "notes", Json.jstr "total"])]

/-! ## ExtractionStage (Basic, Balanced) -/

/-- One schema field: name, type string, description, required flag, and nested
fields (present only for object / list-of-object types). -/
inductive FieldSpec where
  | mk (name ftype description : String) (required : Bool) (nestedFields : List FieldSpec)

/-- Name of a schema field. -/
def FieldSpec.name : FieldSpec → String
  | .mk n _ _ _ _ => n

/-- An extraction result: one optional value per schema field name; `none`
models a null field value in the dumped dynamic model. -/
def FieldValues : Type := List (String × Option String)

instance : DecidableEq FieldValues := inferInstanceAs (DecidableEq (List (String × Option String)))

/-- Whether a dumped result has at least one non-null field value. -/
def hasNonNullValue (r : FieldValues) : Bool :=
  r.any (fun f => f.2.isSome)

mutual

/-- Canonical text of one field spec, used inside extraction cache keys. -/
def fieldSpecKey : FieldSpec → String
  | .mk n t d r nested =>
    n ++ ":" ++ t ++ ":" ++ d ++ ":" ++ (if r then "req" else "opt")
      ++ "[" ++ fieldSpecListKey nested ++ "]"

/-- Canonical text of a field list, used inside extraction cache keys. -/
def fieldSpecListKey : List FieldSpec → String
  | [] => ""
  | f :: fs => fieldSpecKey f ++ ";" ++ fieldSpecListKey fs

end

/-- Canonical text of the structure hints dict, used inside the balanced cache key. -/
def hintsKey : List (String × String) → String
  | [] => ""
  | (k, v) :: rest => k ++ "=" ++ v ++ ";" ++ hintsKey rest

/-- The `generate_cache_key(content, extra_params)` primitive: a content hash,
modelled as the identity on the concatenation of its canonical inputs. -/
def generateCacheKey (content extraParams : String) : String :=
  content ++ "##" ++ extraParams

/-- Content selection of the balanced stage: the vision markdown when provided
and non-empty, else the raw page content. -/
def balancedContentToUse (pageContent : String) (markdownContent : Option String) : String :=
  match markdownContent with
  | some m => if m = "" then pageContent else m
  | none => pageContent

/-- The cache key of `extract_fields_balanced`: content plus
`{"step": "extract_fields_balanced", "schema": ..., "doc_type": ..., "hints": ...}`. -/
def balancedCacheKey (contentToUse : String) (schemaFields : List FieldSpec)
    (documentType : String) (structureHints : List (String × String)) : String :=
  generateCacheKey contentToUse
    ("step=extract_fields_balanced|schema=" ++ fieldSpecListKey schemaFields
      ++ "|doc_type=" ++ documentType ++ "|hints=" ++ hintsKey structureHints)

/-- The cache key of `extract_fields_basic`: normalized content plus
`{"step": "extract_fields_basic", "schema": ..., "doc_type": ...}`. -/
def basicCacheKey (normalizedText : String) (schemaFields : List FieldSpec)
    (documentType : String) : String :=
  generateCacheKey normalizedText
    ("step=extract_fields_basic|schema=" ++ fieldSpecListKey schemaFields
      ++ "|doc_type=" ++ documentType)

/-- The balanced extraction stage (`extract_fields_balanced`): empty field lists
short-circuit to an empty result with no LLM call; the content used is the
vision markdown when non-empty, else the raw page content; a cached result with
at least one non-null value is returned as is, an all-null cached result is
treated as a prior failed extraction and recomputed; only a non-empty result
with at least one non-null value is written back to the extraction cache.  The
oracle models the structured-output extraction LLM call. -/
def extract_fields_balanced (pageContent : String) (markdownContent : Option String)
    (schemaFields : List FieldSpec) (documentType : String)
    (structureHints : List (String × String)) (cache : List (String × FieldValues))
    (oracle : String → List FieldSpec → FieldValues) :
    FieldValues × List (String × FieldValues) × CallEffects :=
  if schemaFields.isEmpty then ([], cache, ⟨0, 0, 0⟩)
  else
    let contentToUse := balancedContentToUse pageContent markdownContent
    let key := balancedCacheKey contentToUse schemaFields documentType structureHints
    let recompute : FieldValues × List (String × FieldValues) × CallEffects :=
      let result := oracle contentToUse schemaFields
      if ¬result.isEmpty ∧ hasNonNullValue result then
        (result, (key, result) :: cache, ⟨1, 1, 1⟩)
      else
        (result, cache, ⟨1, 1, 0⟩)
    match alookup cache key with
    | some r => if hasNonNullValue r then (r, cache, ⟨0, 1, 0⟩) else recompute
    | none => recompute

/-- The basic extraction stage (`extract_fields_basic`): normalizes the raw
text, checks the extraction cache and returns any cached result immediately,
otherwise calls the extraction LLM and saves the dumped result to the cache
unconditionally (the documented basic variant has neither the all-null-hit
recompute nor the guarded write of the balanced variant).  The empty-field
short-circuit is Modelled from the spec: section 4.7 states it for both
variants while the architecture documentation spells it out only for the
balanced one. -/
def extract_fields_basic (pageContent : String) (schemaFields : List FieldSpec)
    (documentType : String) (cache : List (String × FieldValues))
    (oracle : String → List FieldSpec → FieldValues) :
    FieldValues × List (String × FieldValues) × CallEffects :=
  if schemaFields.isEmpty then ([], cache, ⟨0, 0, 0⟩)
  else
    let normalized := normalizeGarbageCharacters pageContent
    let key := basicCacheKey normalized schemaFields documentType
    match alookup cache key with
    | some r => (r, cache, ⟨0, 1, 0⟩)
    | none =>
      let result := oracle normalized schemaFields
      (result, (key, result) :: cache, ⟨1, 1, 1⟩)

/-- A single optional `notes` field, for concrete extraction scenarios. -/
def notesField : FieldSpec := .mk "notes" "string" "free-form notes" false []

/-- An extraction oracle that finds a value for the `notes` field. -/
def notesFoundOracle : String → List FieldSpec → FieldValues :=
  fun _ _ => [("notes", some "shipment delayed")]

/-- An extraction oracle that finds nothing (dumps an all-null model). -/
def allNullOracle : String → List FieldSpec → FieldValues :=
  fun _ _ => [("notes", none)]

/-! ## BatchCoordinator (`processBatch`) -/

/-- One document submitted to a batch call. -/
structure BatchDocument where
  filename : String
  content : String
deriving DecidableEq, Repr

/-- The aggregated result of a batch call, mirroring the frontend
`BatchProcessResult` interface: overall status, counts, successful payloads and
per-file error messages. -/
structure BatchProcessResult where
  status : String
  total_files : Nat
  successful : Nat
  failed : Nat
  results : List String
  errors : List (String × String)
deriving DecidableEq, Repr

/-- Successful payloads of a batch, in document order. -/
def batchResults (proc : BatchDocument → Except String String) :
    List BatchDocument → List String
  | [] => []
  | d :: rest =>
    match proc d with
    | .ok p => p :: batchResults proc rest
    | .error _ => batchResults proc rest

/-- Per-file errors of a batch, in document order. -/
def batchErrors (proc : BatchDocument → Except String String) :
    List BatchDocument → List (String × String)
  | [] => []
  | d :: rest =>
    match proc d with
    | .ok _ => batchErrors proc rest
    | .error e => (d.filename, e) :: batchErrors proc rest

/-- Modelled from the spec: `processBatch(documents, schemaId?)` of the backend
BatchCoordinator (`/process-batch` in `main.py`), which is not under `src/` —
only the frontend `BatchProcessResult` interface is.  Each document is
dispatched independently to the orchestrator (`proc`, whose `Except` result
models the document's terminal Succeeded/Failed outcome); outcomes are
recorded independently and aggregated into counts, payloads and error pairs,
with status `"completed"` when nothing failed, `"failed"` when nothing
succeeded, and `"partial"` otherwise, per spec section 4.9. -/
def processBatch (proc : BatchDocument → Except String String)
    (docs : List BatchDocument) : BatchProcessResult :=
  let results := batchResults proc docs
  let errors := batchErrors proc docs
  let successful := results.length
  let failed := errors.length
  let status :=
    if failed = 0 then "completed"
    else if successful = 0 then "failed"
    else "partial"
  ⟨status, docs.length, successful, failed, results, errors⟩

/-- The spec's batch-isolation scenario: three documents of which the second is
corrupted. -/
def threeDocs : List BatchDocument :=
  [⟨"doc1.pdf", "A"⟩, ⟨"doc2.pdf", "B"⟩, ⟨"doc3.pdf", "C"⟩]

/-- An orchestrator run in which exactly `doc2.pdf` raises during extraction. -/
def corruptSecondProc : BatchDocument → Except String String :=
  fun d => if d.filename = "doc2.pdf" then .error "extraction stage raised" else .ok d.content

/-! ## Dashboard extract handler (frontend page limit) -/

/-- One selected file as the Dashboard sees it: name, MIME type, and the page
count that `countPdfPages` reports when the file is a PDF. -/
structure SelectedFile where
  name : String
  mimeType : String
  pdfPageCount : Nat
deriving DecidableEq, Repr

/-- Whether the Dashboard treats a file as a PDF: PDF MIME type or a name whose
lower-casing ends in `.pdf`. -/
def isPdfFile (f : SelectedFile) : Bool :=
  f.mimeType = "application/pdf" || strEndsWith (strToLower f.name) ".pdf"

/-- Pages contributed by one file: the PDF page count for PDFs, 1 otherwise. -/
def filePageContribution (f : SelectedFile) : Nat :=
  if isPdfFile f then f.pdfPageCount else 1

/-- The Dashboard's `computeTotalPages`: sum of per-file page contributions. -/
def computeTotalPages (files : List SelectedFile) : Nat :=
  (files.map filePageContribution).sum

/-- The Dashboard's `isOverPageLimit` flag. -/
def isOverPageLimit (totalSelectedPages : Nat) : Bool :=
  totalSelectedPages > 20

/-- Observable outcome of a click on Extract: do nothing, set an error
message, or dispatch the batch upload for a schema. -/
inductive ExtractOutcome where
  | noop : ExtractOutcome
  | showError (message : String) : ExtractOutcome
  | dispatchUpload (schemaId : String) : ExtractOutcome
deriving DecidableEq, Repr

/-- The page-limit error message of the Dashboard. -/
def pageLimitMessage : String := "Upload limit exceeded. Max 20 pages per upload batch."

/-- The guard sequence of the Dashboard's `handleExtract`: empty selection does
nothing; while pages are still being counted an advisory error is shown; over
the 20-page limit the limit error is shown and no upload is issued; without a
selected template an error is shown; otherwise the batch upload is dispatched. -/
def handleExtract (files : List SelectedFile) (isCountingPages : Bool)
    (selectedSchemaId : Option String) : ExtractOutcome :=
  if files.isEmpty then .noop
  else if isCountingPages then
    .showError "Calculating page count. Please wait a moment and try again."
  else if isOverPageLimit (computeTotalPages files) then .showError pageLimitMessage
  else
    match selectedSchemaId with
    | none => .showError "Please select a template before extracting."
    | some sid => .dispatchUpload sid

/-! ## Helper lemmas -/

theorem alookup_cons_self {α : Type} (k : String) (v : α) (l : List (String × α)) :
    alookup ((k, v) :: l) k = some v := by
  simp [alookup]

/-- Branch equation: a Layer-1 hit returns the stored type with the heuristic
workflow, touching neither the LLM, the cache, nor the registry. -/
theorem classify_auth_eq (content filename : String) (schemaId : Option String)
    (st : RouterState) (oracle : String → Option String) (t : String)
    (hauth : getAuthoritativeType st.registry schemaId = some t) :
    classify content filename schemaId st oracle =
      (⟨determineWorkflow filename (countNonWhitespace (snippetOf content)), t⟩, st,
        ⟨0, 0, 0, 0⟩) := by
  unfold classify
  rw [hauth]

/-- Branch equation: the `.txt` fast path (no stored type). -/
theorem classify_txt_eq (content filename : String) (schemaId : Option String)
    (st : RouterState) (oracle : String → Option String)
    (hauth : getAuthoritativeType st.registry schemaId = none)
    (htxt : strEndsWith filename ".txt" = true) :
    classify content filename schemaId st oracle =
      (⟨"basic", "generic"⟩, st, ⟨0, 0, 0, 0⟩) := by
  unfold classify
  rw [hauth]
  simp [htxt]

/-- Branch equation: a Layer-2 cache hit returns the cached decision verbatim. -/
theorem classify_cache_hit_eq (content filename : String) (schemaId : Option String)
    (st : RouterState) (oracle : String → Option String) (d : RoutingDecision)
    (hauth : getAuthoritativeType st.registry schemaId = none)
    (htxt : strEndsWith filename ".txt" = false)
    (hhit : alookup st.routerCache (routerCacheKey (snippetOf content) schemaId) = some d) :
    classify content filename schemaId st oracle = (d, st, ⟨0, 1, 0, 0⟩) := by
  unfold classify
  rw [hauth]
  simp [htxt, hhit]

/-- Branch equation: the short-content fast path, reached after a Layer-2 miss. -/
theorem classify_short_eq (content filename : String) (schemaId : Option String)
    (st : RouterState) (oracle : String → Option String)
    (hauth : getAuthoritativeType st.registry schemaId = none)
    (htxt : strEndsWith filename ".txt" = false)
    (hmiss : alookup st.routerCache (routerCacheKey (snippetOf content) schemaId) = none)
    (hshort : countNonWhitespace (snippetOf content) < 50) :
    classify content filename schemaId st oracle =
      (⟨"basic", "generic"⟩, st, ⟨0, 1, 0, 0⟩) := by
  unfold classify
  rw [hauth]
  simp [htxt, hmiss, hshort]

/-- Branch equation: the Layer-3 LLM path with its backfill and cache write. -/
theorem classify_llm_eq (content filename : String) (schemaId : Option String)
    (st : RouterState) (oracle : String → Option String)
    (hauth : getAuthoritativeType st.registry schemaId = none)
    (htxt : strEndsWith filename ".txt" = false)
    (hmiss : alookup st.routerCache (routerCacheKey (snippetOf content) schemaId) = none)
    (hlong : ¬ countNonWhitespace (snippetOf content) < 50) :
    classify content filename schemaId st oracle =
      (⟨determineWorkflow filename (countNonWhitespace (snippetOf content)),
         (oracle (snippetOf content)).getD "generic"⟩,
       ⟨(classifyBackfill st.registry schemaId ((oracle (snippetOf content)).getD "generic")).1,
         (routerCacheKey (snippetOf content) schemaId,
           ⟨determineWorkflow filename (countNonWhitespace (snippetOf content)),
             (oracle (snippetOf content)).getD "generic"⟩) :: st.routerCache⟩,
       ⟨1, 1, 1,
         if (classifyBackfill st.registry schemaId
              ((oracle (snippetOf content)).getD "generic")).2 then 1 else 0⟩) := by
  unfold classify
  rw [hauth]
  simp [htxt, hmiss, hlong]

/-! ## Claim theorems -/

/-- C1: whenever the TypeRegistry holds a non-empty `documentType` for the
schema, `classify` returns that stored value as the decision's `documentType`,
makes no LLM call, and the decision does not depend on what any LLM oracle
would infer. -/
theorem classify_stored_type_is_authoritative (content filename sid t : String)
    (st : RouterState) (oracle oracleB : String → Option String)
    (hstored : alookup st.registry sid = some t) (hne : t ≠ "") :
    (classify content filename (some sid) st oracle).1.documentType = t ∧
    (classify content filename (some sid) st oracle).2.2.llmCalls = 0 ∧
    (classify content filename (some sid) st oracle).1 =
      (classify content filename (some sid) st oracleB).1 := by
  have hauth : getAuthoritativeType st.registry (some sid) = some t := by
    simp [getAuthoritativeType, hstored, hne]
  rw [classify_auth_eq content filename (some sid) st oracle t hauth,
    classify_auth_eq content filename (some sid) st oracleB t hauth]
  exact ⟨rfl, rfl, rfl⟩

/-- C1 witness: a concrete registry storing `invoice` for schema `s1`. -/
theorem classify_stored_type_is_authoritative_witness :
    (classify longContent "doc.pdf" (some "s1") ⟨[("s1", "invoice")], []⟩
        invoiceRouterOracle).1.documentType = "invoice" ∧
    (classify longContent "doc.pdf" (some "s1") ⟨[("s1", "invoice")], []⟩
        invoiceRouterOracle).2.2.llmCalls = 0 ∧
    (classify longContent "doc.pdf" (some "s1") ⟨[("s1", "invoice")], []⟩
        invoiceRouterOracle).1 =
      (classify longContent "doc.pdf" (some "s1") ⟨[("s1", "invoice")], []⟩
        failingRouterOracle).1 :=
  classify_stored_type_is_authoritative longContent "doc.pdf" "s1" "invoice"
    ⟨[("s1", "invoice")], []⟩ invoiceRouterOracle failingRouterOracle (by decide) (by decide)

/-- C2 counterexample: on content with fewer than 50 non-whitespace characters,
no stored type and a non-`.txt` filename, `classify` does return
`{workflow := basic, documentType := generic}` with zero LLM calls, but it
performs one router-cache read — the Layer-2 cache lookup precedes the
short-content check in the documented flow, so the claimed zero-cache-read
behaviour is false. -/
theorem classify_short_content_reads_cache :
    (classify "hi" "a.pdf" none ⟨[], []⟩ invoiceRouterOracle).1 = ⟨"basic", "generic"⟩ ∧
    (classify "hi" "a.pdf" none ⟨[], []⟩ invoiceRouterOracle).2.2.llmCalls = 0 ∧
    ¬ (classify "hi" "a.pdf" none ⟨[], []⟩ invoiceRouterOracle).2.2.cacheReads = 0 := by
  decide

/-- C2 (amended): with no authoritative stored type, a non-plain-text filename,
a router-cache miss and a normalized snippet of fewer than 50 non-whitespace
characters, `classify` returns `{workflow := basic, documentType := generic}`
with zero LLM calls, zero cache writes and an unchanged state, but with exactly
one cache read, because the Layer-2 cache lookup precedes the short-content
check. -/
theorem classify_short_content_fast_path (content filename : String)
    (schemaId : Option String) (st : RouterState) (oracle : String → Option String)
    (hauth : getAuthoritativeType st.registry schemaId = none)
    (htxt : strEndsWith filename ".txt" = false)
    (hmiss : alookup st.routerCache (routerCacheKey (snippetOf content) schemaId) = none)
    (hshort : countNonWhitespace (snippetOf content) < 50) :
    (classify content filename schemaId st oracle).1 = ⟨"basic", "generic"⟩ ∧
    (classify content filename schemaId st oracle).2.1 = st ∧
    (classify content filename schemaId st oracle).2.2 = ⟨0, 1, 0, 0⟩ := by
  rw [classify_short_eq content filename schemaId st oracle hauth htxt hmiss hshort]
  exact ⟨rfl, rfl, rfl⟩

/-- C2 amended witness: the concrete short input of the counterexample. -/
theorem classify_short_content_fast_path_witness :
    (classify "hi" "a.pdf" none ⟨[], []⟩ invoiceRouterOracle).1 = ⟨"basic", "generic"⟩ ∧
    (classify "hi" "a.pdf" none ⟨[], []⟩ invoiceRouterOracle).2.1 = ⟨[], []⟩ ∧
    (classify "hi" "a.pdf" none ⟨[], []⟩ invoiceRouterOracle).2.2 = ⟨0, 1, 0, 0⟩ :=
  classify_short_content_fast_path "hi" "a.pdf" none ⟨[], []⟩ invoiceRouterOracle
    (by decide) (by decide) (by decide) (by decide)

/-- C6: when the Layer-3 LLM classification call fails (the oracle returns
`none`, modelling a timeout or malformed response), `classify` falls back to
`{workflow := balanced, documentType := generic}` instead of propagating an
error; `classify` is a total function, so a classification failure never
raises. -/
theorem classify_llm_failure_fallback (content filename : String)
    (schemaId : Option String) (st : RouterState) (oracle : String → Option String)
    (hauth : getAuthoritativeType st.registry schemaId = none)
    (htxt : strEndsWith filename ".txt" = false)
    (hmiss : alookup st.routerCache (routerCacheKey (snippetOf content) schemaId) = none)
    (hlong : ¬ countNonWhitespace (snippetOf content) < 50)
    (hfail : oracle (snippetOf content) = none) :
    (classify content filename schemaId st oracle).1 = ⟨"balanced", "generic"⟩ := by
  rw [classify_llm_eq content filename schemaId st oracle hauth htxt hmiss hlong, hfail]
  unfold determineWorkflow
  simp [htxt, hlong]

/-- C6 witness: a failing oracle on long non-`.txt` content. -/
theorem classify_llm_failure_fallback_witness :
    (classify longContent "doc.pdf" none ⟨[], []⟩ failingRouterOracle).1 =
      ⟨"balanced", "generic"⟩ :=
  classify_llm_failure_fallback longContent "doc.pdf" none ⟨[], []⟩ failingRouterOracle
    (by decide) (by decide) (by decide) (by decide) (by decide)

/-- Helper: a call whose state carries the decision `d` under the current
router-cache key — with a registry whose authoritative answer is either absent
or agrees with `d` — returns `d` without an LLM call, whichever of the two
layers serves it. -/
theorem classify_served_without_llm (content filename : String) (schemaId : Option String)
    (reg : List (String × String)) (cache : List (String × RoutingDecision))
    (oracle : String → Option String) (d : RoutingDecision)
    (htxt : strEndsWith filename ".txt" = false)
    (hwf : d.workflow = determineWorkflow filename (countNonWhitespace (snippetOf content)))
    (hagree : getAuthoritativeType reg schemaId = none ∨
      getAuthoritativeType reg schemaId = some d.documentType) :
    (classify content filename schemaId
        ⟨reg, (routerCacheKey (snippetOf content) schemaId, d) :: cache⟩ oracle).1 = d ∧
    (classify content filename schemaId
        ⟨reg, (routerCacheKey (snippetOf content) schemaId, d) :: cache⟩ oracle).2.2.llmCalls
      = 0 := by
  rcases hagree with h | h
  · rw [classify_cache_hit_eq content filename schemaId
      ⟨reg, (routerCacheKey (snippetOf content) schemaId, d) :: cache⟩ oracle d h htxt
      (alookup_cons_self _ _ _)]
    exact ⟨rfl, rfl⟩
  · rw [classify_auth_eq content filename schemaId
      ⟨reg, (routerCacheKey (snippetOf content) schemaId, d) :: cache⟩ oracle
      d.documentType h]
    refine ⟨?_, rfl⟩
    cases d with
    | mk w dt =>
      simp only [RoutingDecision.mk.injEq]
      simp only [RoutingDecision.workflow] at hwf
      simp [hwf]

/-- C7: with no external TypeRegistry mutation between the two calls, a second
`classify` on the same `(snippet, schemaId)` yields the identical
`RoutingDecision` and performs no LLM invocation: it is served by the
authoritative layer (after a backfill), by the router-cache entry written by
the first call, or by the deterministic fast paths. -/
theorem classify_idempotent_no_second_llm_call (content filename : String)
    (schemaId : Option String) (st : RouterState) (oracle : String → Option String) :
    (classify content filename schemaId
        (classify content filename schemaId st oracle).2.1 oracle).1 =
      (classify content filename schemaId st oracle).1 ∧
    (classify content filename schemaId
        (classify content filename schemaId st oracle).2.1 oracle).2.2.llmCalls = 0 := by
  cases hauth : getAuthoritativeType st.registry schemaId with
  | some t =>
    rw [classify_auth_eq content filename schemaId st oracle t hauth]
    rw [classify_auth_eq content filename schemaId st oracle t hauth]
    exact ⟨rfl, rfl⟩
  | none =>
    cases htxt : strEndsWith filename ".txt" with
    | true =>
      rw [classify_txt_eq content filename schemaId st oracle hauth htxt]
      rw [classify_txt_eq content filename schemaId st oracle hauth htxt]
      exact ⟨rfl, rfl⟩
    | false =>
      cases hc : alookup st.routerCache (routerCacheKey (snippetOf content) schemaId) with
      | some d =>
        rw [classify_cache_hit_eq content filename schemaId st oracle d hauth htxt hc]
        rw [classify_cache_hit_eq content filename schemaId st oracle d hauth htxt hc]
        exact ⟨rfl, rfl⟩
      | none =>
        by_cases hlen : countNonWhitespace (snippetOf content) < 50
        · rw [classify_short_eq content filename schemaId st oracle hauth htxt hc hlen]
          rw [classify_short_eq content filename schemaId st oracle hauth htxt hc hlen]
          exact ⟨rfl, rfl⟩
        · rw [classify_llm_eq content filename schemaId st oracle hauth htxt hc hlen]
          refine classify_served_without_llm content filename schemaId
            (classifyBackfill st.registry schemaId
              ((oracle (snippetOf content)).getD "generic")).1
            st.routerCache oracle
            ⟨determineWorkflow filename (countNonWhitespace (snippetOf content)),
              (oracle (snippetOf content)).getD "generic"⟩ htxt rfl ?_
          cases schemaId with
          | none => exact Or.inl rfl
          | some sid =>
            by_cases hg : ((oracle (snippetOf content)).getD "generic") = "generic"
            · have hbf : classifyBackfill st.registry (some sid)
                  ((oracle (snippetOf content)).getD "generic") = (st.registry, false) := by
                unfold classifyBackfill
                simp [hg]
              rw [hbf]
              exact Or.inl hauth
            · cases hr : alookup st.registry sid with
              | some t0 =>
                have hbf : classifyBackfill st.registry (some sid)
                    ((oracle (snippetOf content)).getD "generic") = (st.registry, false) := by
                  unfold classifyBackfill setDocumentTypeIfAbsent
                  simp [hg, hr]
                rw [hbf]
                exact Or.inl hauth
              | none =>
                have hbf : classifyBackfill st.registry (some sid)
                    ((oracle (snippetOf content)).getD "generic") =
                    ((sid, (oracle (snippetOf content)).getD "generic") :: st.registry,
                      true) := by
                  unfold classifyBackfill setDocumentTypeIfAbsent
                  simp [hg, hr]
                rw [hbf]
                by_cases he : ((oracle (snippetOf content)).getD "generic") = ""
                · exact Or.inl (by simp [getAuthoritativeType, alookup, he])
                · exact Or.inr (by simp [getAuthoritativeType, alookup, he])

/-- Helper: the set-if-absent registry write preserves every stored binding. -/
theorem setDocumentTypeIfAbsent_preserves (reg : List (String × String))
    (sid t sidP v : String) (h : alookup reg sidP = some v) :
    alookup (setDocumentTypeIfAbsent reg sid t).1 sidP = some v := by
  unfold setDocumentTypeIfAbsent
  cases hl : alookup reg sid with
  | some t0 => exact h
  | none =>
    by_cases hs : sid = sidP
    · rw [hs] at hl
      rw [hl] at h
      cases h
    · simp [alookup, hs, h]

/-- Helper: the router backfill step preserves every stored binding. -/
theorem classifyBackfill_preserves (reg : List (String × String))
    (schemaId : Option String) (inferred sidP v : String)
    (h : alookup reg sidP = some v) :
    alookup (classifyBackfill reg schemaId inferred).1 sidP = some v := by
  unfold classifyBackfill
  cases schemaId with
  | none => exact h
  | some sid =>
    by_cases hg : inferred ≠ "generic"
    · simpa [hg] using setDocumentTypeIfAbsent_preserves reg sid inferred sidP v h
    · simp [hg, h]

/-- C3: the registry write is set-once — it never overwrites an existing
non-null `documentType` and never clears one, so two racing first-time
backfills keep the first writer's value; `classify` as a whole never clears or
overwrites a stored type, and it attempts a backfill only when a schema id was
given, no authoritative type existed, and the final type is not `"generic"`. -/
theorem registry_backfill_write_once (reg : List (String × String))
    (sid t u sidP v : String) (content filename : String) (schemaId : Option String)
    (st : RouterState) (oracle : String → Option String) :
    (alookup reg sidP = some v →
      alookup (setDocumentTypeIfAbsent reg sid t).1 sidP = some v) ∧
    (alookup reg sid = none →
      alookup (setDocumentTypeIfAbsent (setDocumentTypeIfAbsent reg sid t).1 sid u).1 sid
        = some t) ∧
    (alookup st.registry sidP = some v →
      alookup (classify content filename schemaId st oracle).2.1.registry sidP = some v) ∧
    ((classify content filename schemaId st oracle).2.2.registryWrites ≠ 0 →
      schemaId.isSome = true ∧
      getAuthoritativeType st.registry schemaId = none ∧
      (classify content filename schemaId st oracle).1.documentType ≠ "generic") := by
  refine ⟨setDocumentTypeIfAbsent_preserves reg sid t sidP v, ?_, ?_, ?_⟩
  · intro hnone
    have h1 : (setDocumentTypeIfAbsent reg sid t).1 = (sid, t) :: reg := by
      unfold setDocumentTypeIfAbsent
      simp [hnone]
    rw [h1]
    have h2 : alookup ((sid, t) :: reg) sid = some t := alookup_cons_self _ _ _
    unfold setDocumentTypeIfAbsent
    rw [h2]
    exact h2
  · intro hstored
    cases hauth : getAuthoritativeType st.registry schemaId with
    | some t0 =>
      rw [classify_auth_eq content filename schemaId st oracle t0 hauth]
      exact hstored
    | none =>
      cases htxt : strEndsWith filename ".txt" with
      | true =>
        rw [classify_txt_eq content filename schemaId st oracle hauth htxt]
        exact hstored
      | false =>
        cases hc : alookup st.routerCache (routerCacheKey (snippetOf content) schemaId) with
        | some d =>
          rw [classify_cache_hit_eq content filename schemaId st oracle d hauth htxt hc]
          exact hstored
        | none =>
          by_cases hlen : countNonWhitespace (snippetOf content) < 50
          · rw [classify_short_eq content filename schemaId st oracle hauth htxt hc hlen]
            exact hstored
          · rw [classify_llm_eq content filename schemaId st oracle hauth htxt hc hlen]
            exact classifyBackfill_preserves st.registry schemaId _ sidP v hstored
  · intro hwrites
    cases hauth : getAuthoritativeType st.registry schemaId with
    | some t0 =>
      rw [classify_auth_eq content filename schemaId st oracle t0 hauth] at hwrites
      exact absurd rfl hwrites
    | none =>
      cases htxt : strEndsWith filename ".txt" with
      | true =>
        rw [classify_txt_eq content filename schemaId st oracle hauth htxt] at hwrites
        exact absurd rfl hwrites
      | false =>
        cases hc : alookup st.routerCache (routerCacheKey (snippetOf content) schemaId) with
        | some d =>
          rw [classify_cache_hit_eq content filename schemaId st oracle d hauth htxt hc]
            at hwrites
          exact absurd rfl hwrites
        | none =>
          by_cases hlen : countNonWhitespace (snippetOf content) < 50
          · rw [classify_short_eq content filename schemaId st oracle hauth htxt hc hlen]
              at hwrites
            exact absurd rfl hwrites
          · rw [classify_llm_eq content filename schemaId st oracle hauth htxt hc hlen]
              at hwrites
            rw [classify_llm_eq content filename schemaId st oracle hauth htxt hc hlen]
            cases schemaId with
            | none =>
              exact absurd rfl hwrites
            | some sid2 =>
              refine ⟨rfl, ?_, ?_⟩
              · first
                | exact hauth
                | rfl
              by_cases hg : ((oracle (snippetOf content)).getD "generic") = "generic"
              · have hbf : classifyBackfill st.registry (some sid2)
                    ((oracle (snippetOf content)).getD "generic") = (st.registry, false) := by
                  unfold classifyBackfill
                  simp [hg]
                rw [hbf] at hwrites
                exact absurd rfl hwrites
              · exact hg

/-- C3 witness: a stored binding survives a conflicting write, the first writer
of a race wins, a stored binding survives a `classify` call, and a concrete
backfilling call satisfies the write guard. -/
theorem registry_backfill_write_once_witness :
    alookup (setDocumentTypeIfAbsent [("s1", "invoice")] "s1" "resume").1 "s1"
      = some "invoice" ∧
    alookup
      (setDocumentTypeIfAbsent (setDocumentTypeIfAbsent [] "s1" "invoice").1 "s1" "resume").1
      "s1" = some "invoice" ∧
    alookup (classify longContent "doc.pdf" (some "s2")
        ⟨[("s1", "invoice")], []⟩ invoiceRouterOracle).2.1.registry "s1" = some "invoice" ∧
    ((some "s2" : Option String).isSome = true ∧
      getAuthoritativeType [("s1", "invoice")] (some "s2") = none ∧
      (classify longContent "doc.pdf" (some "s2")
        ⟨[("s1", "invoice")], []⟩ invoiceRouterOracle).1.documentType ≠ "generic") :=
  ⟨(registry_backfill_write_once [("s1", "invoice")] "s1" "resume" "x" "s1" "invoice"
      longContent "doc.pdf" (some "s2") ⟨[("s1", "invoice")], []⟩ invoiceRouterOracle).1
      (by decide),
   (registry_backfill_write_once [] "s1" "invoice" "resume" "s1" "invoice"
      longContent "doc.pdf" (some "s2") ⟨[("s1", "invoice")], []⟩ invoiceRouterOracle).2.1
      (by decide),
   (registry_backfill_write_once [("s1", "invoice")] "s1" "resume" "x" "s1" "invoice"
      longContent "doc.pdf" (some "s2") ⟨[("s1", "invoice")], []⟩ invoiceRouterOracle).2.2.1
      (by decide),
   (registry_backfill_write_once [("s1", "invoice")] "s1" "resume" "x" "s1" "invoice"
      longContent "doc.pdf" (some "s2") ⟨[("s1", "invoice")], []⟩ invoiceRouterOracle).2.2.2
      (by decide)⟩

/-- Helper: rendering object entries is a map over the entry list. -/
theorem renderEntries_jsonEntriesOf (l : List (String × Json)) :
    renderEntries (jsonEntriesOf l) = l.map (fun kv => (kv.1, serializeJson kv.2)) := by
  induction l with
  | nil => rfl
  | cons kv rest ih =>
    cases kv with
    | mk k v => simp [jsonEntriesOf, renderEntries, ih]

/-- Helper: two pointwise `Pairwise` facts combine into a conjunction. -/
theorem listPairwiseAnd {α : Type} {R S : α → α → Prop} :
    ∀ {l : List α}, l.Pairwise R → l.Pairwise S →
      l.Pairwise (fun a b => R a b ∧ S a b) := by
  intro l hR hS
  induction l with
  | nil => exact List.Pairwise.nil
  | cons a rest ih =>
    cases hR with
    | cons h1 h2 =>
      cases hS with
      | cons h3 h4 => exact List.Pairwise.cons (fun b hb => ⟨h1 b hb, h3 b hb⟩) (ih h2 h4)

/-- Helper: equal character data means equal strings. -/
theorem stringDataInj {a b : String} (h : a.data = b.data) : a = b := by
  cases a
  cases b
  exact congrArg String.mk h

/-- Helper: key-sorting rendered entries is invariant under permutations of the
entry list when the keys are pairwise distinct. -/
theorem sortEntries_eq_of_perm (l lP : List (String × String)) (hp : l.Perm lP)
    (hn : (l.map Prod.fst).Nodup) : sortEntries l = sortEntries lP := by
  have hps : (sortEntries l).Perm (sortEntries lP) :=
    (List.perm_insertionSort entryKeyLe l).trans
      (hp.trans (List.perm_insertionSort entryKeyLe lP).symm)
  have hs1 : List.Sorted entryKeyLe (sortEntries l) :=
    List.sorted_insertionSort entryKeyLe l
  have hs2 : List.Sorted entryKeyLe (sortEntries lP) :=
    List.sorted_insertionSort entryKeyLe lP
  have hn1 : ((sortEntries l).map Prod.fst).Nodup :=
    (((List.perm_insertionSort entryKeyLe l).map Prod.fst).nodup_iff).mpr hn
  have hn2 : ((sortEntries lP).map Prod.fst).Nodup :=
    ((((List.perm_insertionSort entryKeyLe lP).trans hp.symm).map Prod.fst).nodup_iff).mpr hn
  have hne1 : (sortEntries l).Pairwise (fun a b => a.1 ≠ b.1) :=
    List.pairwise_map.mp hn1
  have hne2 : (sortEntries lP).Pairwise (fun a b => a.1 ≠ b.1) :=
    List.pairwise_map.mp hn2
  have hlt1 : (sortEntries l).Pairwise entryKeyLt :=
    (listPairwiseAnd hs1 hne1).imp
      (fun h => lt_of_le_of_ne h.1 (fun hd => h.2 (stringDataInj hd)))
  have hlt2 : (sortEntries lP).Pairwise entryKeyLt :=
    (listPairwiseAnd hs2 hne2).imp
      (fun h => lt_of_le_of_ne h.1 (fun hd => h.2 (stringDataInj hd)))
  exact List.eq_of_perm_of_sorted hps hlt1 hlt2

/-- C4 counterexample: two structurally identical schemas whose `fields` arrays
are ordered differently produce different prompt-cache keys (Python's
`sort_keys=True` canonicalization sorts object keys, not array elements), so
the second `generate` call is a cache miss and makes an LLM call. -/
theorem prompt_cache_key_array_order_sensitive :
    promptCacheKey "invoice" schemaFieldsAB ≠ promptCacheKey "invoice" schemaFieldsBA ∧
    (generate_system_prompt "invoice" schemaFieldsBA
        (generate_system_prompt "invoice" schemaFieldsAB [] constPromptOracle).2.1
        constPromptOracle).2.2.llmCalls = 1 := by
  decide

/-- C4 (amended): the prompt-cache key is invariant under reordering of object
keys — two schemas that are permutations of the same distinct-keyed entry list
produce the same cache key, and the second `generate` call is a cache hit with
no LLM call — but not under reordering of field arrays, whose element order is
part of the canonical serialization. -/
theorem generate_system_prompt_key_order_invariant (dt : String)
    (e eP : List (String × Json)) (hp : e.Perm eP) (hn : (e.map Prod.fst).Nodup)
    (cache : List (String × String)) (oracle : String → Json → Option String)
    (p : String) (ho : oracle dt (Json.objOf e) = some p) :
    promptCacheKey dt (Json.objOf e) = promptCacheKey dt (Json.objOf eP) ∧
    (generate_system_prompt dt (Json.objOf eP)
        (generate_system_prompt dt (Json.objOf e) cache oracle).2.1 oracle).1 =
      (generate_system_prompt dt (Json.objOf e) cache oracle).1 ∧
    (generate_system_prompt dt (Json.objOf eP)
        (generate_system_prompt dt (Json.objOf e) cache oracle).2.1 oracle).2.2.llmCalls
      = 0 := by
  have hsort : sortEntries (renderEntries (jsonEntriesOf e))
      = sortEntries (renderEntries (jsonEntriesOf eP)) := by
    rw [renderEntries_jsonEntriesOf, renderEntries_jsonEntriesOf]
    apply sortEntries_eq_of_perm _ _ (hp.map _)
    have hfst : (e.map (fun kv => (kv.1, serializeJson kv.2))).map Prod.fst
        = e.map Prod.fst := by
      rw [List.map_map]
      rfl
    rw [hfst]
    exact hn
  have hkey : promptCacheKey dt (Json.objOf e) = promptCacheKey dt (Json.objOf eP) := by
    unfold promptCacheKey schemaHash Json.objOf
    simp [serializeJson, hsort]
  refine ⟨hkey, ?_⟩
  unfold generate_system_prompt
  rw [← hkey]
  cases hcache : alookup cache (promptCacheKey dt (Json.objOf e)) with
  | some q => simp [hcache]
  | none => simp [hcache, ho, alookup_cons_self]

/-- C4 amended witness: a two-entry schema object and its key-swapped form. -/
theorem generate_system_prompt_key_order_invariant_witness :
    promptCacheKey "invoice"
        (Json.objOf [("title", Json.jstr "inv"), ("fields", Json.jstr "f")]) =
      promptCacheKey "invoice"
        (Json.objOf [("fields", Json.jstr "f"), ("title", Json.jstr "inv")]) ∧
    (generate_system_prompt "invoice"
        (Json.objOf [("fields", Json.jstr "f"), ("title", Json.jstr "inv")])
        (generate_system_prompt "invoice"
          (Json.objOf [("title", Json.jstr "inv"), ("fields", Json.jstr "f")])
          [] constPromptOracle).2.1 constPromptOracle).1 =
      (generate_system_prompt "invoice"
        (Json.objOf [("title", Json.jstr "inv"), ("fields", Json.jstr "f")])
        [] constPromptOracle).1 ∧
    (generate_system_prompt "invoice"
        (Json.objOf [("fields", Json.jstr "f"), ("title", Json.jstr "inv")])
        (generate_system_prompt "invoice"
          (Json.objOf [("title", Json.jstr "inv"), ("fields", Json.jstr "f")])
          [] constPromptOracle).2.1 constPromptOracle).2.2.llmCalls = 0 :=
  generate_system_prompt_key_order_invariant "invoice"
    [("title", Json.jstr "inv"), ("fields", Json.jstr "f")]
    [("fields", Json.jstr "f"), ("title", Json.jstr "inv")]
    (List.Perm.swap _ _ _) (by decide) [] constPromptOracle "SYSTEM PROMPT" rfl

/-- Helper branch equation: balanced extraction on a cache hit with at least
one non-null value returns the cached result with no LLM call and no write. -/
theorem balanced_hit_nonnull_eq (pageContent : String) (markdownContent : Option String)
    (schemaFields : List FieldSpec) (documentType : String)
    (structureHints : List (String × String)) (cache : List (String × FieldValues))
    (oracle : String → List FieldSpec → FieldValues) (r : FieldValues)
    (hfields : schemaFields.isEmpty = false)
    (hhit : alookup cache
      (balancedCacheKey (balancedContentToUse pageContent markdownContent) schemaFields
        documentType structureHints) = some r)
    (hnn : hasNonNullValue r = true) :
    extract_fields_balanced pageContent markdownContent schemaFields documentType
      structureHints cache oracle = (r, cache, ⟨0, 1, 0⟩) := by
  unfold extract_fields_balanced
  rw [hfields]
  simp only [Bool.false_eq_true, if_false]
  rw [hhit]
  simp [hnn]

/-- Helper branch equation: balanced extraction on an all-null cache hit
recomputes via the LLM, writing back only a non-empty non-all-null result. -/
theorem balanced_allnull_hit_eq (pageContent : String) (markdownContent : Option String)
    (schemaFields : List FieldSpec) (documentType : String)
    (structureHints : List (String × String)) (cache : List (String × FieldValues))
    (oracle : String → List FieldSpec → FieldValues) (r : FieldValues)
    (hfields : schemaFields.isEmpty = false)
    (hhit : alookup cache
      (balancedCacheKey (balancedContentToUse pageContent markdownContent) schemaFields
        documentType structureHints) = some r)
    (hnn : hasNonNullValue r = false) :
    extract_fields_balanced pageContent markdownContent schemaFields documentType
      structureHints cache oracle =
      (if ¬(oracle (balancedContentToUse pageContent markdownContent)
            schemaFields).isEmpty ∧
          hasNonNullValue
            (oracle (balancedContentToUse pageContent markdownContent) schemaFields) then
        (oracle (balancedContentToUse pageContent markdownContent) schemaFields,
          (balancedCacheKey (balancedContentToUse pageContent markdownContent) schemaFields
            documentType structureHints,
            oracle (balancedContentToUse pageContent markdownContent) schemaFields)
            :: cache,
          ⟨1, 1, 1⟩)
      else
        (oracle (balancedContentToUse pageContent markdownContent) schemaFields, cache,
          ⟨1, 1, 0⟩)) := by
  unfold extract_fields_balanced
  rw [hfields]
  simp only [Bool.false_eq_true, if_false]
  rw [hhit]
  simp [hnn]

/-- Helper branch equation: balanced extraction on a cache miss recomputes via
the LLM, writing back only a non-empty non-all-null result. -/
theorem balanced_miss_eq (pageContent : String) (markdownContent : Option String)
    (schemaFields : List FieldSpec) (documentType : String)
    (structureHints : List (String × String)) (cache : List (String × FieldValues))
    (oracle : String → List FieldSpec → FieldValues)
    (hfields : schemaFields.isEmpty = false)
    (hmiss : alookup cache
      (balancedCacheKey (balancedContentToUse pageContent markdownContent) schemaFields
        documentType structureHints) = none) :
    extract_fields_balanced pageContent markdownContent schemaFields documentType
      structureHints cache oracle =
      (if ¬(oracle (balancedContentToUse pageContent markdownContent)
            schemaFields).isEmpty ∧
          hasNonNullValue
            (oracle (balancedContentToUse pageContent markdownContent) schemaFields) then
        (oracle (balancedContentToUse pageContent markdownContent) schemaFields,
          (balancedCacheKey (balancedContentToUse pageContent markdownContent) schemaFields
            documentType structureHints,
            oracle (balancedContentToUse pageContent markdownContent) schemaFields)
            :: cache,
          ⟨1, 1, 1⟩)
      else
        (oracle (balancedContentToUse pageContent markdownContent) schemaFields, cache,
          ⟨1, 1, 0⟩)) := by
  unfold extract_fields_balanced
  rw [hfields]
  simp only [Bool.false_eq_true, if_false]
  rw [hmiss]

/-- Helper branch equation: the basic variant returns any cached result. -/
theorem basic_hit_eq (pageContent : String) (schemaFields : List FieldSpec)
    (documentType : String) (cache : List (String × FieldValues))
    (oracle : String → List FieldSpec → FieldValues) (r : FieldValues)
    (hfields : schemaFields.isEmpty = false)
    (hhit : alookup cache
      (basicCacheKey (normalizeGarbageCharacters pageContent) schemaFields documentType)
      = some r) :
    extract_fields_basic pageContent schemaFields documentType cache oracle =
      (r, cache, ⟨0, 1, 0⟩) := by
  unfold extract_fields_basic
  rw [hfields]
  simp only [Bool.false_eq_true, if_false]
  rw [hhit]

/-- Helper branch equation: the basic variant writes its result unconditionally
on a cache miss. -/
theorem basic_miss_eq (pageContent : String) (schemaFields : List FieldSpec)
    (documentType : String) (cache : List (String × FieldValues))
    (oracle : String → List FieldSpec → FieldValues)
    (hfields : schemaFields.isEmpty = false)
    (hmiss : alookup cache
      (basicCacheKey (normalizeGarbageCharacters pageContent) schemaFields documentType)
      = none) :
    extract_fields_basic pageContent schemaFields documentType cache oracle =
      (oracle (normalizeGarbageCharacters pageContent) schemaFields,
        (basicCacheKey (normalizeGarbageCharacters pageContent) schemaFields documentType,
          oracle (normalizeGarbageCharacters pageContent) schemaFields) :: cache,
        ⟨1, 1, 1⟩) := by
  unfold extract_fields_basic
  rw [hfields]
  simp only [Bool.false_eq_true, if_false]
  rw [hmiss]

/-- C5 counterexample: the basic variant returns an all-null cached result with
no LLM call (no recompute, even though the oracle would have found a value),
and writes a fresh all-null result to the extraction cache — both contradict
the claimed both-variant all-null discipline. -/
theorem basic_extraction_all_null_not_recomputed :
    (extract_fields_basic "hello doc" [notesField] "generic"
        [(basicCacheKey (normalizeGarbageCharacters "hello doc") [notesField] "generic",
          [("notes", (none : Option String))])] notesFoundOracle).1
      = [("notes", none)] ∧
    (extract_fields_basic "hello doc" [notesField] "generic"
        [(basicCacheKey (normalizeGarbageCharacters "hello doc") [notesField] "generic",
          [("notes", (none : Option String))])] notesFoundOracle).2.2.llmCalls = 0 ∧
    hasNonNullValue
      (extract_fields_basic "hello doc" [notesField] "generic"
        [(basicCacheKey (normalizeGarbageCharacters "hello doc") [notesField] "generic",
          [("notes", (none : Option String))])] notesFoundOracle).1 = false ∧
    (extract_fields_basic "hello doc" [notesField] "generic" [] allNullOracle).2.2.cacheWrites
      = 1 ∧
    hasNonNullValue
      (extract_fields_basic "hello doc" [notesField] "generic" [] allNullOracle).1
      = false := by
  decide

/-- C5 (amended): the balanced variant returns a cached result only when it has
at least one non-null value, treats an all-null cached result as a prior failed
extraction and recomputes, and writes back only non-empty results with a
non-null value; the basic variant, by contrast, returns any cached result
(all-null included) and writes its result to the cache unconditionally. -/
theorem extraction_cache_all_null_discipline (pageContent : String)
    (markdownContent : Option String) (schemaFields : List FieldSpec)
    (documentType : String) (structureHints : List (String × String))
    (cache : List (String × FieldValues))
    (oracle : String → List FieldSpec → FieldValues) (r : FieldValues)
    (hfields : schemaFields.isEmpty = false) :
    (alookup cache
        (balancedCacheKey (balancedContentToUse pageContent markdownContent) schemaFields
          documentType structureHints) = some r →
      hasNonNullValue r = true →
      (extract_fields_balanced pageContent markdownContent schemaFields documentType
          structureHints cache oracle).1 = r ∧
      (extract_fields_balanced pageContent markdownContent schemaFields documentType
          structureHints cache oracle).2.2.llmCalls = 0) ∧
    (alookup cache
        (balancedCacheKey (balancedContentToUse pageContent markdownContent) schemaFields
          documentType structureHints) = some r →
      hasNonNullValue r = false →
      (extract_fields_balanced pageContent markdownContent schemaFields documentType
          structureHints cache oracle).2.2.llmCalls = 1) ∧
    ((extract_fields_balanced pageContent markdownContent schemaFields documentType
        structureHints cache oracle).2.2.cacheWrites ≠ 0 →
      ¬(extract_fields_balanced pageContent markdownContent schemaFields documentType
          structureHints cache oracle).1.isEmpty ∧
      hasNonNullValue
        (extract_fields_balanced pageContent markdownContent schemaFields documentType
          structureHints cache oracle).1 = true) ∧
    (alookup cache
        (basicCacheKey (normalizeGarbageCharacters pageContent) schemaFields documentType)
        = some r →
      (extract_fields_basic pageContent schemaFields documentType cache oracle).1 = r ∧
      (extract_fields_basic pageContent schemaFields documentType cache oracle).2.2.llmCalls
        = 0) ∧
    (alookup cache
        (basicCacheKey (normalizeGarbageCharacters pageContent) schemaFields documentType)
        = none →
      (extract_fields_basic pageContent schemaFields documentType cache
          oracle).2.2.cacheWrites = 1) := by
  refine ⟨?_, ?_, ?_, ?_, ?_⟩
  · intro hhit hnn
    rw [balanced_hit_nonnull_eq pageContent markdownContent schemaFields documentType
      structureHints cache oracle r hfields hhit hnn]
    exact ⟨rfl, rfl⟩
  · intro hhit hnn
    rw [balanced_allnull_hit_eq pageContent markdownContent schemaFields documentType
      structureHints cache oracle r hfields hhit hnn]
    by_cases hg : ¬(oracle (balancedContentToUse pageContent markdownContent)
        schemaFields).isEmpty ∧
        hasNonNullValue (oracle (balancedContentToUse pageContent markdownContent)
          schemaFields)
    · rw [if_pos hg]
    · rw [if_neg hg]
  · intro hwrites
    cases hhit : alookup cache
        (balancedCacheKey (balancedContentToUse pageContent markdownContent) schemaFields
          documentType structureHints) with
    | some q =>
      cases hnn : hasNonNullValue q with
      | true =>
        rw [balanced_hit_nonnull_eq pageContent markdownContent schemaFields documentType
          structureHints cache oracle q hfields hhit hnn] at hwrites
        exact absurd rfl hwrites
      | false =>
        rw [balanced_allnull_hit_eq pageContent markdownContent schemaFields documentType
          structureHints cache oracle q hfields hhit hnn] at hwrites ⊢
        by_cases hg : ¬(oracle (balancedContentToUse pageContent markdownContent)
            schemaFields).isEmpty ∧
            hasNonNullValue (oracle (balancedContentToUse pageContent markdownContent)
              schemaFields)
        · rw [if_pos hg]
          exact ⟨hg.1, hg.2⟩
        · rw [if_neg hg] at hwrites
          exact absurd rfl hwrites
    | none =>
      rw [balanced_miss_eq pageContent markdownContent schemaFields documentType
        structureHints cache oracle hfields hhit] at hwrites ⊢
      by_cases hg : ¬(oracle (balancedContentToUse pageContent markdownContent)
          schemaFields).isEmpty ∧
          hasNonNullValue (oracle (balancedContentToUse pageContent markdownContent)
            schemaFields)
      · rw [if_pos hg]
        exact ⟨hg.1, hg.2⟩
      · rw [if_neg hg] at hwrites
        exact absurd rfl hwrites
  · intro hhit
    rw [basic_hit_eq pageContent schemaFields documentType cache oracle r hfields hhit]
    exact ⟨rfl, rfl⟩
  · intro hmiss
    rw [basic_miss_eq pageContent schemaFields documentType cache oracle hfields hmiss]

/-- C5 amended witness: an all-null cached entry for the balanced stage is
recomputed while the basic stage returns it as is. -/
theorem extraction_cache_all_null_discipline_witness :
    ((extract_fields_balanced "hello doc" none [notesField] "generic" []
        [(balancedCacheKey (balancedContentToUse "hello doc" none) [notesField] "generic" [],
          [("notes", (none : Option String))])] notesFoundOracle).2.2.llmCalls = 1) ∧
    ((extract_fields_basic "hello doc" [notesField] "generic"
        [(basicCacheKey (normalizeGarbageCharacters "hello doc") [notesField] "generic",
          [("notes", (none : Option String))])] notesFoundOracle).1
      = [("notes", none)]) :=
  ⟨((extraction_cache_all_null_discipline "hello doc" none [notesField] "generic" []
      [(balancedCacheKey (balancedContentToUse "hello doc" none) [notesField] "generic" [],
        [("notes", (none : Option String))])] notesFoundOracle
      [("notes", (none : Option String))] (by decide)).2.1 (by decide) (by decide)),
   ((extraction_cache_all_null_discipline "hello doc" none [notesField] "generic" []
      [(basicCacheKey (normalizeGarbageCharacters "hello doc") [notesField] "generic",
        [("notes", (none : Option String))])] notesFoundOracle
      [("notes", (none : Option String))] (by decide)).2.2.2.1 (by decide)).1⟩

/-- C9: with an empty `fields` list both extraction variants return an empty
result immediately — no LLM call, no cache read or write, and the cache is left
unchanged; an empty field list is a short-circuit, never an error. -/
theorem empty_fields_short_circuit (pageContent : String)
    (markdownContent : Option String) (documentType : String)
    (structureHints : List (String × String)) (cache : List (String × FieldValues))
    (oracle : String → List FieldSpec → FieldValues)
    (schemaFields : List FieldSpec) (hfields : schemaFields = []) :
    extract_fields_balanced pageContent markdownContent schemaFields documentType
      structureHints cache oracle = ([], cache, ⟨0, 0, 0⟩) ∧
    extract_fields_basic pageContent schemaFields documentType cache oracle
      = ([], cache, ⟨0, 0, 0⟩) := by
  subst hfields
  exact ⟨rfl, rfl⟩

/-- C9 witness: both variants on a concrete empty-fields schema. -/
theorem empty_fields_short_circuit_witness :
    extract_fields_balanced "content" (some "md") [] "invoice" [("has_tables", "true")]
      [] notesFoundOracle = ([], [], ⟨0, 0, 0⟩) ∧
    extract_fields_basic "content" [] "invoice" [] notesFoundOracle
      = ([], [], ⟨0, 0, 0⟩) := by
  have h := empty_fields_short_circuit "content" (some "md") "invoice"
    [("has_tables", "true")] [] notesFoundOracle [] rfl
  exact h

/-- Helper: every document lands in exactly one of the two outcome lists. -/
theorem batch_length_sum (proc : BatchDocument → Except String String)
    (docs : List BatchDocument) :
    (batchResults proc docs).length + (batchErrors proc docs).length = docs.length := by
  induction docs with
  | nil => rfl
  | cons d rest ih =>
    cases hp : proc d with
    | ok p =>
      simp only [batchResults, batchErrors, hp, List.length_cons]
      omega
    | error e =>
      simp only [batchResults, batchErrors, hp, List.length_cons]
      omega

/-- Helper: a successful document's payload appears in the results list. -/
theorem batch_mem_results (proc : BatchDocument → Except String String)
    (docs : List BatchDocument) (d : BatchDocument) (hd : d ∈ docs) (p : String)
    (hp : proc d = .ok p) : p ∈ batchResults proc docs := by
  induction docs with
  | nil => cases hd
  | cons d0 rest ih =>
    cases hd with
    | head => simp [batchResults, hp]
    | tail _ hmem =>
      cases h0 : proc d0 with
      | ok q => simp [batchResults, h0, ih hmem]
      | error e => simp [batchErrors, batchResults, h0, ih hmem]

/-- Helper: a failed document's filename and error appear in the errors list. -/
theorem batch_mem_errors (proc : BatchDocument → Except String String)
    (docs : List BatchDocument) (d : BatchDocument) (hd : d ∈ docs) (e : String)
    (he : proc d = .error e) : (d.filename, e) ∈ batchErrors proc docs := by
  induction docs with
  | nil => cases hd
  | cons d0 rest ih =>
    cases hd with
    | head => simp [batchErrors, he]
    | tail _ hmem =>
      cases h0 : proc d0 with
      | ok q => simp [batchErrors, h0, ih hmem]
      | error e0 => simp [batchErrors, h0, ih hmem]

/-- C8: `processBatch` records every document's terminal outcome independently —
each success appears in `results`, each failure in `errors`, and being a total
function the call itself never raises — with `successful + failed = totalFiles`
and the status `"completed"` when nothing failed, `"partial"` when some but not
all documents succeeded, and `"failed"` when nothing succeeded (for a non-empty
batch). -/
theorem processBatch_isolated_aggregation (proc : BatchDocument → Except String String)
    (docs : List BatchDocument) (hne : docs ≠ []) :
    (processBatch proc docs).successful + (processBatch proc docs).failed
      = (processBatch proc docs).total_files ∧
    ((processBatch proc docs).failed = 0 → (processBatch proc docs).status = "completed") ∧
    (0 < (processBatch proc docs).successful →
      (processBatch proc docs).successful < (processBatch proc docs).total_files →
      (processBatch proc docs).status = "partial") ∧
    ((processBatch proc docs).successful = 0 →
      (processBatch proc docs).status = "failed") ∧
    (∀ d ∈ docs, ∀ p, proc d = .ok p → p ∈ (processBatch proc docs).results) ∧
    (∀ d ∈ docs, ∀ e, proc d = .error e →
      (d.filename, e) ∈ (processBatch proc docs).errors) := by
  have hsum : (batchResults proc docs).length + (batchErrors proc docs).length
      = docs.length := batch_length_sum proc docs
  have hlen : docs.length ≠ 0 := by
    cases docs with
    | nil => exact absurd rfl hne
    | cons d rest => simp
  unfold processBatch
  dsimp only
  refine ⟨hsum, ?_, ?_, ?_, ?_, ?_⟩
  · intro h
    rw [if_pos h]
  · intro h1 h2
    have hf : (batchErrors proc docs).length ≠ 0 := by omega
    have hs : (batchResults proc docs).length ≠ 0 := by omega
    rw [if_neg hf, if_neg hs]
  · intro h0
    have hf : (batchErrors proc docs).length ≠ 0 := by omega
    rw [if_neg hf, if_pos h0]
  · intro d hd p hp
    exact batch_mem_results proc docs d hd p hp
  · intro d hd e he
    exact batch_mem_errors proc docs d hd e he

/-- C8 witness: the spec's scenario — three documents, the second of which
raises during extraction — yields 2 successes, 1 failure and status `partial`,
with documents 1 and 3 in `results` and document 2 in `errors`. -/
theorem processBatch_isolated_aggregation_witness :
    ((processBatch corruptSecondProc threeDocs).successful
        + (processBatch corruptSecondProc threeDocs).failed
      = (processBatch corruptSecondProc threeDocs).total_files ∧
    ((processBatch corruptSecondProc threeDocs).failed = 0 →
      (processBatch corruptSecondProc threeDocs).status = "completed") ∧
    (0 < (processBatch corruptSecondProc threeDocs).successful →
      (processBatch corruptSecondProc threeDocs).successful
        < (processBatch corruptSecondProc threeDocs).total_files →
      (processBatch corruptSecondProc threeDocs).status = "partial") ∧
    ((processBatch corruptSecondProc threeDocs).successful = 0 →
      (processBatch corruptSecondProc threeDocs).status = "failed") ∧
    (∀ d ∈ threeDocs, ∀ p, corruptSecondProc d = .ok p →
      p ∈ (processBatch corruptSecondProc threeDocs).results) ∧
    (∀ d ∈ threeDocs, ∀ e, corruptSecondProc d = .error e →
      (d.filename, e) ∈ (processBatch corruptSecondProc threeDocs).errors)) ∧
    (processBatch corruptSecondProc threeDocs).successful = 2 ∧
    (processBatch corruptSecondProc threeDocs).failed = 1 ∧
    (processBatch corruptSecondProc threeDocs).status = "partial" :=
  ⟨processBatch_isolated_aggregation corruptSecondProc threeDocs (by decide),
    by decide, by decide, by decide⟩

/-- C10: when the selected files' total page count — actual page counts for
PDFs, one page per non-PDF file — exceeds 20 and page counting has finished,
the Dashboard's extract handler shows exactly the upload-limit error message;
over the limit no upload is ever dispatched regardless of the counting flag,
and an upload is dispatched only when the total is at most 20. -/
theorem dashboard_page_limit_guard (files : List SelectedFile) (counting : Bool)
    (sel : Option String) (hover : computeTotalPages files > 20)
    (hcount : counting = false) :
    handleExtract files counting sel = .showError pageLimitMessage ∧
    (∀ c : Bool, ∀ sid : String, handleExtract files c sel ≠ .dispatchUpload sid) ∧
    (∀ (filesB : List SelectedFile) (cB : Bool) (selB : Option String) (sid : String),
      handleExtract filesB cB selB = .dispatchUpload sid →
      computeTotalPages filesB ≤ 20) := by
  have hnonempty : files.isEmpty = false := by
    cases files with
    | nil => simp [computeTotalPages] at hover
    | cons f rest => simp
  refine ⟨?_, ?_, ?_⟩
  · unfold handleExtract
    rw [hnonempty, hcount]
    simp [isOverPageLimit, hover]
  · intro c sid
    unfold handleExtract
    rw [hnonempty]
    cases c with
    | true => simp
    | false => simp [isOverPageLimit, hover]
  · intro filesB cB selB sid hdisp
    by_contra hgt
    have hoverB : computeTotalPages filesB > 20 := by omega
    have hnonemptyB : filesB.isEmpty = false := by
      cases filesB with
      | nil => simp [computeTotalPages] at hoverB
      | cons f rest => simp
    unfold handleExtract at hdisp
    rw [hnonemptyB] at hdisp
    cases cB with
    | true => simp at hdisp
    | false =>
      rw [if_pos (by simp [isOverPageLimit, hoverB] : isOverPageLimit
        (computeTotalPages filesB) = true)] at hdisp
      · cases hdisp

/-- C10 witness: a single 25-page PDF with counting finished. -/
theorem dashboard_page_limit_guard_witness :
    handleExtract [⟨"report.pdf", "application/pdf", 25⟩] false (some "s1")
      = .showError pageLimitMessage ∧
    (∀ c : Bool, ∀ sid : String,
      handleExtract [⟨"report.pdf", "application/pdf", 25⟩] c (some "s1")
        ≠ .dispatchUpload sid) ∧
    (∀ (filesB : List SelectedFile) (cB : Bool) (selB : Option String) (sid : String),
      handleExtract filesB cB selB = .dispatchUpload sid →
      computeTotalPages filesB ≤ 20) :=
  dashboard_page_limit_guard [⟨"report.pdf", "application/pdf", 25⟩] false (some "s1")
    (by decide) rfl

end DocumentIntake
